import Mathlib

/-!
Verification of the sleep-session lifecycle core of the dream-weaver backend.

The embedding below translates the session lifecycle controller (the
`gotobed` routes: begin session, record wake-up, query active session),
the SleepData schema, and the legacy query-based controller into Lean.

Modelling conventions:
* Timestamps are integers (milliseconds since the epoch), as produced by
  `Date.getTime()`.
* The per-user slice of the SleepSessions collection is a
  `List SleepSession` in newest-created-first order: the controllers always
  read it through `find({user}).sort({createdAt: -1})`, and a newly created
  session (with a later `createdAt`) is consed on the front, so the list
  order coincides with that sort order.
* Request-body fields are modelled with `JsVal` / `DateInput` / `Option`
  so that absent, null, non-numeric and unparseable inputs are all
  representable; JavaScript truthiness tests are made explicit.
* The mongoose `document.save()` after an in-place mutation is modelled by
  replacing the document at its index in the list (`List.set`).
* HTTP error responses are modelled by an `ApiError` value: status 400
  bodies are `validationError`, the 409 ACTIVE_SESSION_EXISTS body is
  `conflictError`, status 404 bodies are `notFoundError`.
-/

namespace DreamWeaver

/-- A JavaScript request-body value, as far as the controller's checks can
distinguish them: `undefined`, `null`, a number (modelled as an integer),
a string, or a boolean. -/
inductive JsVal where
  | undef
  | null
  | num (n : Int)
  | str (s : String)
  | boolean (b : Bool)
deriving DecidableEq, Repr

/-- JavaScript truthiness of a `JsVal` (`Boolean(x)` / `if (x)`). -/
def jsTruthy : JsVal → Bool
  | .undef => false
  | .null => false
  | .num n => n != 0
  | .str s => s != ""
  | .boolean b => b

/-- A date-like request field: `absent` covers the falsy cases
(`undefined`, `null`, `""`, `0`), `invalid` a truthy value for which
`new Date(x).getTime()` is NaN, and `valid t` a truthy value parsing to
the timestamp `t`. -/
inductive DateInput where
  | absent
  | invalid
  | valid (t : Int)
deriving DecidableEq, Repr

/-- One embedded wake-up record, per the `wakeUpSchema` of the SleepData
model (sleepQuality, dreamJournal, awakenAt, finishedSleeping,
backToBedAt). -/
structure WakeUp where
  sleepQuality : Int
  dreamJournal : String
  awakenAt : Int
  finishedSleeping : Bool
  backToBedAt : Option Int
deriving DecidableEq, Repr

/-- In the persisted wakeUp schema, the `finishedSleeping` field is
declared with `default: true` (the controller nevertheless always sets the
field explicitly before saving). -/
def wakeUpSchemaFinishedSleepingDefault : Bool := true

/-- One SleepData document, per the `sleepDataSchema`: owning user,
bedroom reference, cuddleBuddy, sleepyThoughts, the ordered wakeUps array
and the creation timestamp. `sid` stands for the generated `_id`. -/
structure SleepSession where
  sid : Nat
  user : Nat
  bedroom : String
  cuddleBuddy : String
  sleepyThoughts : String
  wakeUps : List WakeUp
  createdAt : Int
deriving DecidableEq, Repr

/-- A bedroom document, reduced to the fields the ownership claim needs:
its `_id` and its `ownerId` (from the Bedroom model). The session
lifecycle controller itself never reads this collection. -/
structure Bedroom where
  id : String
  ownerId : Nat
deriving DecidableEq, Repr

/-- `bedroomOwnedBy bedrooms bedroomId userId` holds when the bedroom
collection contains a bedroom with that id whose `ownerId` is `userId`. -/
def bedroomOwnedBy (bedrooms : List Bedroom) (bedroomId : String) (userId : Nat) : Bool :=
  bedrooms.any (fun b => b.id == bedroomId && b.ownerId == userId)

/-- The summary of an active session included in the 409 response body and
in the GET /active response: id, createdAt, cuddleBuddy, sleepyThoughts,
wake-up count and the last wake-up (or null). -/
structure ActiveSessionSummary where
  id : Nat
  createdAt : Int
  cuddleBuddy : String
  sleepyThoughts : String
  wakeUpCount : Nat
  lastWakeUp : Option WakeUp
deriving DecidableEq, Repr

/-- Error outcomes of the lifecycle routes: 400 validation bodies, the 409
ACTIVE_SESSION_EXISTS body (which carries the active session summary), and
404 bodies. -/
inductive ApiError where
  | validationError (message : String)
  | conflictError (message : String) (activeSession : ActiveSessionSummary)
  | notFoundError (message : String)
deriving DecidableEq, Repr

/-- Whether an error is the 409 conflict kind. -/
def ApiError.isConflict : ApiError → Bool
  | .conflictError _ _ => true
  | _ => false

/-- Whether an error is the 400 validation kind. -/
def ApiError.isValidation : ApiError → Bool
  | .validationError _ => true
  | _ => false

/-- Whether a route outcome is a success. -/
def isOk {α : Type} : Except ApiError α → Bool
  | .ok _ => true
  | .error _ => false

/-- Whether a route outcome is a 400 validation error. -/
def failsValidation {α : Type} : Except ApiError α → Bool
  | .error e => e.isValidation
  | .ok _ => false

/-- The active-session test the controller applies to one session:
active when `wakeUps.length === 0`, or when the last element of `wakeUps`
has `finishedSleeping === false`. -/
def isActiveSession (s : SleepSession) : Bool :=
  if s.wakeUps.length == 0 then
    true
  else
    match s.wakeUps.getLast? with
    | some lastWakeUp => lastWakeUp.finishedSleeping == false
    | none => false

/-- A session whose last wake-up has `finishedSleeping == true`: the
permanently closed state of the lifecycle. -/
def sessionClosed (s : SleepSession) : Bool :=
  match s.wakeUps.getLast? with
  | some lastWakeUp => lastWakeUp.finishedSleeping
  | none => false

/-- The bounded window the resolver scans:
`find({user}).sort({createdAt: -1}).limit(5)`. -/
def recentWindow (sessions : List SleepSession) : List SleepSession :=
  sessions.take 5

/-- The resolver's `for (const session of recentSessions)` loop, returning
the first active session together with its index in the scanned list (the
index records which stored document the subsequent `save()` replaces). -/
def scanActiveEntry : List SleepSession → Option (Nat × SleepSession)
  | [] => none
  | session :: rest =>
    if isActiveSession session then
      some (0, session)
    else
      (scanActiveEntry rest).map (fun p => (p.1 + 1, p.2))

/-- The same loop returning only the session, as the begin-session and
GET /active handlers use it. -/
def scanActiveSession : List SleepSession → Option SleepSession
  | [] => none
  | session :: rest =>
    if isActiveSession session then some session
    else scanActiveSession rest

/-- The session state resolver: scan the 5 newest sessions, newest first,
for the first active one. -/
def findActiveSession (sessions : List SleepSession) : Option SleepSession :=
  scanActiveSession (recentWindow sessions)

/-- Resolver variant keeping the index of the chosen document. -/
def findActiveEntry (sessions : List SleepSession) : Option (Nat × SleepSession) :=
  scanActiveEntry (recentWindow sessions)

/-- `/^[0-9a-fA-F]$/` on one character. -/
def isHexChar (c : Char) : Bool :=
  c.isDigit || (('a' ≤ c) && (c ≤ 'f')) || (('A' ≤ c) && (c ≤ 'F'))

/-- The `bedroom.match(/^[0-9a-fA-F]{24}$/)` format check on the supplied
bedroom id. -/
def matchesObjectIdFormat (s : String) : Bool :=
  s.length == 24 && s.toList.all isHexChar

/-- The cuddle-buddy enumeration of the schema and of the controller's
`validCuddleBuddies` list. -/
def validCuddleBuddies : List String :=
  ["none", "pillow", "stuffed animal", "pet", "person"]

/-- Truthiness of an optional string body field (`undefined` and `""` are
falsy). -/
def optStrTruthy : Option String → Bool
  | none => false
  | some s => s != ""

/-- The `activeSession` summary object the controller builds for the 409
and GET /active responses. -/
def summarizeActiveSession (s : SleepSession) : ActiveSessionSummary :=
  { id := s.sid
    createdAt := s.createdAt
    cuddleBuddy := s.cuddleBuddy
    sleepyThoughts := s.sleepyThoughts
    wakeUpCount := s.wakeUps.length
    lastWakeUp := s.wakeUps.getLast? }

/-- Request body of POST / (begin session). -/
structure BeginInput where
  bedroom : Option String
  cuddleBuddy : Option String
  sleepyThoughts : Option String
deriving DecidableEq, Repr

/-- POST / — begin a sleep session. `store` is the acting user's sessions,
newest first; `newId` the id the store generates; `now` the current time.
On success the created session and the updated store are returned; on
error the store is untouched. Follows the handler: bedroom presence check,
bedroom id format check, cuddleBuddy enum check, then the active-session
scan (409 on a hit), then creation with defaulted fields. -/
def beginSession (store : List SleepSession) (userId : Nat) (inp : BeginInput)
    (newId : Nat) (now : Int) : Except ApiError (SleepSession × List SleepSession) :=
  if !optStrTruthy inp.bedroom then
    .error (.validationError "Bedroom is required to start a sleep session.")
  else
    let bedroom := inp.bedroom.getD ""
    if !matchesObjectIdFormat bedroom then
      .error (.validationError "Invalid bedroom ID format.")
    else if optStrTruthy inp.cuddleBuddy
        && !(validCuddleBuddies.contains (inp.cuddleBuddy.getD "")) then
      .error (.validationError "Invalid cuddle buddy.")
    else
      match findActiveSession store with
      | some existingActiveSession =>
        .error (.conflictError
          "You already have an active sleep session. Redirecting to wake-up page."
          (summarizeActiveSession existingActiveSession))
      | none =>
        let newSleepSession : SleepSession :=
          { sid := newId
            user := userId
            bedroom := bedroom
            cuddleBuddy :=
              if optStrTruthy inp.cuddleBuddy then inp.cuddleBuddy.getD "" else "none"
            sleepyThoughts :=
              if optStrTruthy inp.sleepyThoughts then inp.sleepyThoughts.getD "" else ""
            wakeUps := []
            createdAt := now }
        .ok (newSleepSession, newSleepSession :: store)

/-- Request body of POST /wakeup (record wake-up). -/
structure WakeInput where
  sleepQuality : JsVal
  dreamJournal : Option String
  awakenAt : DateInput
  finishedSleeping : JsVal
  backToBedAt : DateInput
deriving DecidableEq, Repr

/-- The success payload of POST /wakeup: the updated session, the new
wake-up count, and whether this wake-up completed the session. -/
structure WakeOutcome where
  data : SleepSession
  wakeUpCount : Nat
  sessionCompleted : Bool
deriving DecidableEq, Repr

/-- `awakenAt ? new Date(awakenAt) : new Date()` — the supplied time, or
the current time for a falsy/absent input. -/
def coerceAwakenAt (d : DateInput) (now : Int) : Int :=
  match d with
  | .valid t => t
  | _ => now

/-- `backToBedAt ? new Date(backToBedAt) : null` — the supplied time, or
null for a falsy/absent input. -/
def coerceBackToBedAt (d : DateInput) : Option Int :=
  match d with
  | .valid t => some t
  | _ => none

/-- The `backToBedAt` value after the controller's default policy: when
not finished sleeping and no back-to-bed time was given, it becomes
`awakenAt + 30 minutes`; otherwise the coerced input stands. -/
def appliedBackToBedAt (inp : WakeInput) (now : Int) : Option Int :=
  if !jsTruthy inp.finishedSleeping && (coerceBackToBedAt inp.backToBedAt).isNone then
    some (coerceAwakenAt inp.awakenAt now + 30 * 60 * 1000)
  else
    coerceBackToBedAt inp.backToBedAt

/-- The `wakeUpEvent` object the handler builds (after the default
policy): validated quality, defaulted dream journal, coerced times, and
the `Boolean(finishedSleeping)` coercion. -/
def builtWakeUpEvent (inp : WakeInput) (now : Int) (sleepQuality : Int) : WakeUp :=
  { sleepQuality := sleepQuality
    dreamJournal := if optStrTruthy inp.dreamJournal then inp.dreamJournal.getD "" else ""
    awakenAt := coerceAwakenAt inp.awakenAt now
    finishedSleeping := jsTruthy inp.finishedSleeping
    backToBedAt := appliedBackToBedAt inp now }

/-- `activeSleepSession.wakeUps.push(wakeUpEvent)` — the session after the
in-place append. -/
def appendedSession (s : SleepSession) (w : WakeUp) : SleepSession :=
  { s with wakeUps := s.wakeUps ++ [w] }

/-- POST /wakeup — record a wake-up event. Follows the handler order:
sleepQuality presence, sleepQuality numeric-range, awakenAt format,
backToBedAt format, then the active-session scan (404 when none), then the
wake-up event construction with the `Boolean(...)` coercion, the
finished/backToBed consistency check, the 30-minute backToBedAt default,
and finally the push onto `wakeUps` with the document saved in place. -/
def recordWakeUp (store : List SleepSession) (inp : WakeInput) (now : Int) :
    Except ApiError (List SleepSession × WakeOutcome) :=
  if inp.sleepQuality == .undef || inp.sleepQuality == .null then
    .error (.validationError "Sleep quality rating is required for wake-up events.")
  else
    match inp.sleepQuality with
    | .num sleepQuality =>
      if sleepQuality < 1 || sleepQuality > 10 then
        .error (.validationError "Sleep quality must be a number between 1 and 10.")
      else if inp.awakenAt == .invalid then
        .error (.validationError "Invalid awakening time format.")
      else if inp.backToBedAt == .invalid then
        .error (.validationError "Invalid back-to-bed time format.")
      else
        match findActiveEntry store with
        | none =>
          .error (.notFoundError
            "No active sleep session found. Please start a new sleep session first.")
        | some (idx, activeSleepSession) =>
          if jsTruthy inp.finishedSleeping && (coerceBackToBedAt inp.backToBedAt).isSome then
            .error (.validationError "Cannot set back-to-bed time when finished sleeping.")
          else
            .ok (store.set idx
                  (appendedSession activeSleepSession (builtWakeUpEvent inp now sleepQuality)),
              { data := appendedSession activeSleepSession (builtWakeUpEvent inp now sleepQuality)
                wakeUpCount :=
                  (appendedSession activeSleepSession
                    (builtWakeUpEvent inp now sleepQuality)).wakeUps.length
                sessionCompleted := jsTruthy inp.finishedSleeping })
    | _ =>
      .error (.validationError "Sleep quality must be a number between 1 and 10.")

/-- The GET /active response body: a presence flag plus the summary. -/
structure ActiveCheckResponse where
  hasActiveSession : Bool
  activeSession : Option ActiveSessionSummary
deriving DecidableEq, Repr

/-- GET /active — the read-only active-session query. Both the
has-a-session and the no-session cases are 200 responses, never errors. -/
def getActiveRoute (store : List SleepSession) : Except ApiError ActiveCheckResponse :=
  match findActiveSession store with
  | some activeSession =>
    .ok { hasActiveSession := true
          activeSession := some (summarizeActiveSession activeSession) }
  | none =>
    .ok { hasActiveSession := false, activeSession := none }

/-- The legacy controller's per-session activity test: the query
`'wakeUps.finishedSleeping': {$ne: true}` matches a document exactly when
no element of its `wakeUps` array has `finishedSleeping == true`
(an empty array matches too). -/
def isLegacyActive (s : SleepSession) : Bool :=
  s.wakeUps.all (fun w => !(w.finishedSleeping == true))

/-- The legacy resolver: `findOne({user, 'wakeUps.finishedSleeping':
{$ne: true}}).sort({createdAt: -1})` — the newest session with no finished
wake-up. -/
def legacyFindActive (store : List SleepSession) : Option SleepSession :=
  store.find? isLegacyActive

/-- One sequential lifecycle call: a begin-session request or a
record-wake-up request, with the store-generated id and the request time. -/
inductive Op where
  | begin (inp : BeginInput) (newId : Nat) (now : Int)
  | wake (inp : WakeInput) (now : Int)
deriving DecidableEq, Repr

/-- Apply one lifecycle call to the user's stored sessions: an error
response leaves the store unchanged; a success installs the updated
store. -/
def applyOp (userId : Nat) (store : List SleepSession) : Op → List SleepSession
  | .begin inp newId now =>
    match beginSession store userId inp newId now with
    | .ok (_, store') => store'
    | .error _ => store
  | .wake inp now =>
    match recordWakeUp store inp now with
    | .ok (store', _) => store'
    | .error _ => store

/-- Run a strictly sequential sequence of lifecycle calls from the empty
store. -/
def runOps (userId : Nat) (ops : List Op) : List SleepSession :=
  ops.foldl (applyOp userId) []

/-- Every non-final wake-up of the session is unfinished: the shape that
append-discipline maintains (a finished wake-up is only ever last). -/
def monotoneWakeUps (s : SleepSession) : Bool :=
  s.wakeUps.dropLast.all (fun w => w.finishedSleeping == false)

/-- The store invariant the sequential lifecycle maintains: every session
other than the newest is inactive, and every session has all its non-final
wake-ups unfinished. -/
def GoodStore (store : List SleepSession) : Prop :=
  (∀ s ∈ store.drop 1, isActiveSession s = false) ∧
    ∀ s ∈ store, monotoneWakeUps s = true

/-! ### Basic facts about the per-session predicates -/

lemma isActiveSession_eq (s : SleepSession) :
    isActiveSession s =
      (match s.wakeUps.getLast? with
       | some w => !w.finishedSleeping
       | none => true) := by
  unfold isActiveSession
  by_cases h : s.wakeUps = []
  · simp [h]
  · have h0 : (s.wakeUps.length == 0) = false := by
      simp only [beq_eq_false_iff_ne, ne_eq, List.length_eq_zero]
      exact h
    rw [h0]
    simp only [Bool.false_eq_true, if_false]
    obtain ⟨w, hw⟩ := Option.isSome_iff_exists.mp (List.getLast?_isSome.mpr h)
    rw [hw]
    cases hfin : w.finishedSleeping <;> simp [hfin]

lemma sessionClosed_eq_not_isActive (s : SleepSession) :
    sessionClosed s = !isActiveSession s := by
  rw [isActiveSession_eq]
  unfold sessionClosed
  cases hl : s.wakeUps.getLast? with
  | none => simp
  | some w => cases hfin : w.finishedSleeping <;> simp [hfin]

/-! ### The resolver loop: characterization -/

lemma scanActiveEntry_some {l : List SleepSession} {i : Nat} {s : SleepSession}
    (h : scanActiveEntry l = some (i, s)) :
    l[i]? = some s ∧ isActiveSession s = true ∧
      ∀ j, j < i → ∀ t, l[j]? = some t → isActiveSession t = false := by
  induction l generalizing i with
  | nil => simp [scanActiveEntry] at h
  | cons a rest ih =>
    unfold scanActiveEntry at h
    by_cases ha : isActiveSession a = true
    · rw [if_pos ha] at h
      simp only [Option.some.injEq, Prod.mk.injEq] at h
      obtain ⟨hi, hs⟩ := h
      subst hi
      subst hs
      exact ⟨by simp, ha, by omega⟩
    · have ha' : isActiveSession a = false := by simpa using ha
      rw [if_neg ha] at h
      rw [Option.map_eq_some'] at h
      obtain ⟨⟨i', s'⟩, hp, heq⟩ := h
      simp only [Prod.mk.injEq] at heq
      obtain ⟨hi, hs⟩ := heq
      subst hi
      subst hs
      obtain ⟨g1, g2, g3⟩ := ih hp
      refine ⟨by simpa using g1, g2, ?_⟩
      intro j hj t ht
      cases j with
      | zero =>
        simp only [List.getElem?_cons_zero, Option.some.injEq] at ht
        subst ht
        exact ha'
      | succ k =>
        exact g3 k (by omega) t (by simpa using ht)

lemma scanActiveEntry_eq_none {l : List SleepSession} :
    scanActiveEntry l = none ↔ ∀ s ∈ l, isActiveSession s = false := by
  induction l with
  | nil => simp [scanActiveEntry]
  | cons a rest ih =>
    unfold scanActiveEntry
    by_cases ha : isActiveSession a = true
    · simp [ha, List.forall_mem_cons]
    · have ha' : isActiveSession a = false := by simpa using ha
      simp [ha', List.forall_mem_cons, ih, Option.map_eq_none']

lemma scanActiveSession_eq_entry (l : List SleepSession) :
    scanActiveSession l = (scanActiveEntry l).map Prod.snd := by
  induction l with
  | nil => rfl
  | cons a rest ih =>
    unfold scanActiveSession scanActiveEntry
    by_cases ha : isActiveSession a = true
    · rw [if_pos ha, if_pos ha]
      rfl
    · rw [if_neg ha, if_neg ha, ih]
      cases scanActiveEntry rest with
      | none => rfl
      | some p => rfl

lemma findActiveSession_eq_entry (store : List SleepSession) :
    findActiveSession store = (findActiveEntry store).map Prod.snd :=
  scanActiveSession_eq_entry (recentWindow store)

lemma findActiveSession_eq_none {store : List SleepSession} :
    findActiveSession store = none ↔
      ∀ s ∈ recentWindow store, isActiveSession s = false := by
  rw [findActiveSession_eq_entry, Option.map_eq_none']
  exact scanActiveEntry_eq_none

/-! ### The bounded window -/

lemma window_getElem {l : List SleepSession} {i : Nat} {s : SleepSession}
    (h : (recentWindow l)[i]? = some s) : i < 5 ∧ l[i]? = some s := by
  have hi : i < (recentWindow l).length := by
    rcases List.getElem?_eq_some.mp h with ⟨h5, _⟩
    exact h5
  have h5 : i < 5 := by
    unfold recentWindow at hi
    rw [List.length_take] at hi
    exact (lt_min_iff.mp hi).1
  refine ⟨h5, ?_⟩
  rw [← List.getElem?_take_of_lt h5]
  exact h

lemma window_getElem_of_lt {l : List SleepSession} {i : Nat} (h : i < 5) :
    (recentWindow l)[i]? = l[i]? :=
  List.getElem?_take_of_lt h

lemma window_head {a : SleepSession} {rest : List SleepSession} :
    recentWindow (a :: rest) = a :: (rest.take 4) := by
  unfold recentWindow
  exact List.take_succ_cons

/-! ### Inversion of the lifecycle operations -/

lemma beginSession_ok {store : List SleepSession} {userId : Nat} {inp : BeginInput}
    {newId : Nat} {now : Int} {ns : SleepSession} {store' : List SleepSession}
    (h : beginSession store userId inp newId now = .ok (ns, store')) :
    findActiveSession store = none ∧ ns.wakeUps = [] ∧ ns.createdAt = now ∧
      ns.sid = newId ∧ ns.user = userId ∧ store' = ns :: store := by
  unfold beginSession at h
  by_cases hb : (!optStrTruthy inp.bedroom) = true
  · rw [if_pos hb] at h
    exact absurd h (by simp)
  · rw [if_neg hb] at h
    by_cases hf : (!matchesObjectIdFormat (inp.bedroom.getD "")) = true
    · rw [if_pos hf] at h
      exact absurd h (by simp)
    · rw [if_neg hf] at h
      by_cases hc : (optStrTruthy inp.cuddleBuddy
          && !validCuddleBuddies.contains (inp.cuddleBuddy.getD "")) = true
      · rw [if_pos hc] at h
        exact absurd h (by simp)
      · rw [if_neg hc] at h
        split at h
        · exact absurd h (by simp)
        · rename_i heq
          simp only [Except.ok.injEq, Prod.mk.injEq] at h
          obtain ⟨hns, hstore⟩ := h
          subst hns
          subst hstore
          exact ⟨heq, rfl, rfl, rfl, rfl, rfl⟩

lemma recordWakeUp_ok {store : List SleepSession} {inp : WakeInput} {now : Int}
    {store' : List SleepSession} {out : WakeOutcome}
    (h : recordWakeUp store inp now = .ok (store', out)) :
    ∃ i s q, findActiveEntry store = some (i, s) ∧
      out.data = appendedSession s (builtWakeUpEvent inp now q) ∧
      store' = store.set i out.data ∧
      out.sessionCompleted = jsTruthy inp.finishedSleeping := by
  unfold recordWakeUp at h
  split at h
  · exact absurd h (by simp)
  · split at h
    · rename_i sleepQuality hsq
      split at h
      · exact absurd h (by simp)
      · split at h
        · exact absurd h (by simp)
        · split at h
          · exact absurd h (by simp)
          · split at h
            · exact absurd h (by simp)
            · rename_i idx activeSleepSession heq
              split at h
              · exact absurd h (by simp)
              · simp only [Except.ok.injEq, Prod.mk.injEq] at h
                obtain ⟨h1, h2⟩ := h
                subst h2
                subst h1
                exact ⟨idx, activeSleepSession, sleepQuality, heq, rfl, rfl, rfl⟩
    · exact absurd h (by simp)

lemma findActiveEntry_some {store : List SleepSession} {i : Nat} {s : SleepSession}
    (h : findActiveEntry store = some (i, s)) :
    i < 5 ∧ store[i]? = some s ∧ isActiveSession s = true := by
  obtain ⟨g1, g2, _⟩ := scanActiveEntry_some h
  obtain ⟨h5, hg⟩ := window_getElem g1
  exact ⟨h5, hg, g2⟩

lemma recordWakeUp_notFound {store : List SleepSession} {inp : WakeInput} {now : Int}
    {q : Int} (hq : inp.sleepQuality = .num q) (h1 : 1 ≤ q) (h2 : q ≤ 10)
    (ha : inp.awakenAt ≠ .invalid) (hb : inp.backToBedAt ≠ .invalid)
    (hr : findActiveEntry store = none) :
    recordWakeUp store inp now =
      .error (.notFoundError
        "No active sleep session found. Please start a new sleep session first.") := by
  unfold recordWakeUp
  rw [if_neg (by simp [hq])]
  split
  · rename_i sq hsq
    rw [hq] at hsq
    injection hsq with hsq'
    subst hsq'
    rw [if_neg (by simp; omega), if_neg (by simp [ha]), if_neg (by simp [hb])]
    simp [hr]
  · rename_i hne
    exact absurd hq (by simpa using hne q)

lemma recordWakeUp_consistency {store : List SleepSession} {inp : WakeInput} {now : Int}
    {q t : Int} {e : Nat × SleepSession}
    (hq : inp.sleepQuality = .num q) (h1 : 1 ≤ q) (h2 : q ≤ 10)
    (ha : inp.awakenAt ≠ .invalid) (hb : inp.backToBedAt = .valid t)
    (hf : jsTruthy inp.finishedSleeping = true)
    (he : findActiveEntry store = some e) :
    recordWakeUp store inp now =
      .error (.validationError "Cannot set back-to-bed time when finished sleeping.") := by
  obtain ⟨idx, s⟩ := e
  unfold recordWakeUp
  rw [if_neg (by simp [hq])]
  split
  · rename_i sq hsq
    rw [hq] at hsq
    injection hsq with hsq'
    subst hsq'
    rw [if_neg (by simp; omega), if_neg (by simp [ha]), if_neg (by simp [hb])]
    rw [he]
    simp [hf, hb, coerceBackToBedAt]
  · rename_i hne
    exact absurd hq (by simpa using hne q)

lemma recordWakeUp_isOk {store : List SleepSession} {inp : WakeInput} {now : Int}
    {q : Int} {e : Nat × SleepSession}
    (hq : inp.sleepQuality = .num q) (h1 : 1 ≤ q) (h2 : q ≤ 10)
    (ha : inp.awakenAt ≠ .invalid) (hb : inp.backToBedAt ≠ .invalid)
    (he : findActiveEntry store = some e)
    (hc : (jsTruthy inp.finishedSleeping
        && (coerceBackToBedAt inp.backToBedAt).isSome) = false) :
    isOk (recordWakeUp store inp now) = true := by
  obtain ⟨idx, s⟩ := e
  unfold recordWakeUp
  rw [if_neg (by simp [hq])]
  split
  · rename_i sq hsq
    rw [hq] at hsq
    injection hsq with hsq'
    subst hsq'
    rw [if_neg (by simp; omega), if_neg (by simp [ha]), if_neg (by simp [hb])]
    rw [he]
    simp [hc, isOk]
  · rename_i hne
    exact absurd hq (by simpa using hne q)

lemma recordWakeUp_rangeError {store : List SleepSession} {inp : WakeInput} {now : Int}
    {q : Int} (hq : inp.sleepQuality = .num q) (hrange : q < 1 ∨ q > 10) :
    recordWakeUp store inp now =
      .error (.validationError "Sleep quality must be a number between 1 and 10.") := by
  unfold recordWakeUp
  rw [if_neg (by simp [hq])]
  split
  · rename_i sq hsq
    rw [hq] at hsq
    injection hsq with hsq'
    subst hsq'
    rw [if_pos (by simp; omega)]
  · rfl

lemma recordWakeUp_nonNumeric {store : List SleepSession} {inp : WakeInput} {now : Int}
    (hn : ∀ n : Int, inp.sleepQuality ≠ .num n) :
    failsValidation (recordWakeUp store inp now) = true := by
  unfold recordWakeUp
  by_cases h0 : (inp.sleepQuality == JsVal.undef || inp.sleepQuality == JsVal.null) = true
  · rw [if_pos h0]
    rfl
  · rw [if_neg h0]
    split
    · rename_i sq hsq
      exact absurd hsq (hn sq)
    · rfl

/-! ### The reachable-store invariant -/

lemma goodStore_nil : GoodStore [] := by
  constructor <;> simp

lemma active_monotone_all_unfinished {s : SleepSession}
    (ha : isActiveSession s = true) (hm : monotoneWakeUps s = true) :
    ∀ w ∈ s.wakeUps, w.finishedSleeping = false := by
  intro w hw
  by_cases hnil : s.wakeUps = []
  · rw [hnil] at hw
    simp at hw
  · have hsplit := List.dropLast_append_getLast hnil
    rw [← hsplit] at hw
    rcases List.mem_append.mp hw with h1 | h2
    · have := List.all_eq_true.mp hm w h1
      simpa using this
    · simp only [List.mem_singleton] at h2
      subst h2
      rw [isActiveSession_eq, List.getLast?_eq_getLast s.wakeUps hnil] at ha
      simpa using ha

lemma monotone_appended {s : SleepSession} {w : WakeUp}
    (ha : isActiveSession s = true) (hm : monotoneWakeUps s = true) :
    monotoneWakeUps (appendedSession s w) = true := by
  have hw : (appendedSession s w).wakeUps = s.wakeUps ++ [w] := rfl
  unfold monotoneWakeUps
  rw [hw, List.dropLast_concat, List.all_eq_true]
  intro x hx
  have := active_monotone_all_unfinished ha hm x hx
  simp [this]

lemma goodStore_none_all_inactive {store : List SleepSession}
    (hg : GoodStore store) (h : findActiveSession store = none) :
    ∀ s ∈ store, isActiveSession s = false := by
  intro s hs
  cases store with
  | nil => simp at hs
  | cons a rest =>
    rcases List.mem_cons.mp hs with rfl | hmem
    · apply findActiveSession_eq_none.mp h
      rw [window_head]
      exact List.mem_cons_self _ _
    · exact hg.1 s (by simpa using hmem)

lemma goodStore_begin {store : List SleepSession} {userId : Nat} {inp : BeginInput}
    {newId : Nat} {now : Int} (hg : GoodStore store) :
    GoodStore (applyOp userId store (.begin inp newId now)) := by
  cases hb : beginSession store userId inp newId now with
  | error e =>
    simp only [applyOp, hb]
    exact hg
  | ok res =>
    obtain ⟨ns, store'⟩ := res
    obtain ⟨hnone, hwake, _, _, _, hstore⟩ := beginSession_ok hb
    subst hstore
    simp only [applyOp, hb]
    constructor
    · intro s hs
      simp only [List.drop_one, List.tail_cons] at hs
      exact goodStore_none_all_inactive hg hnone s hs
    · intro s hs
      rcases List.mem_cons.mp hs with rfl | hmem
      · unfold monotoneWakeUps
        rw [hwake]
        rfl
      · exact hg.2 s hmem

lemma goodStore_entry_zero {store : List SleepSession} {i : Nat} {s : SleepSession}
    (hg : GoodStore store) (he : findActiveEntry store = some (i, s)) : i = 0 := by
  obtain ⟨h5, hget, hact⟩ := findActiveEntry_some he
  by_contra hne
  have hpos : 1 ≤ i := Nat.one_le_iff_ne_zero.mpr hne
  have hdrop : (store.drop 1)[i - 1]? = some s := by
    rw [List.getElem?_drop]
    have h1i : 1 + (i - 1) = i := by omega
    rw [h1i]
    exact hget
  have hmem : s ∈ store.drop 1 := List.getElem?_mem hdrop
  have hfalse := hg.1 s hmem
  rw [hact] at hfalse
  exact absurd hfalse (by simp)

lemma goodStore_wake {store : List SleepSession} {inp : WakeInput} {now : Int}
    {userId : Nat} (hg : GoodStore store) :
    GoodStore (applyOp userId store (.wake inp now)) := by
  cases hw : recordWakeUp store inp now with
  | error e =>
    simp only [applyOp, hw]
    exact hg
  | ok res =>
    obtain ⟨store', out⟩ := res
    obtain ⟨i, s, q, he, hdata, hstore, _⟩ := recordWakeUp_ok hw
    subst hstore
    simp only [applyOp, hw]
    obtain ⟨h5, hget, hact⟩ := findActiveEntry_some he
    have hi0 : i = 0 := goodStore_entry_zero hg he
    subst hi0
    cases store with
    | nil => simp at hget
    | cons a rest =>
      simp only [List.getElem?_cons_zero, Option.some.injEq] at hget
      subst hget
      rw [List.set_cons_zero]
      constructor
      · intro x hx
        simp only [List.drop_one, List.tail_cons] at hx
        exact hg.1 x (by simpa using hx)
      · intro x hx
        rcases List.mem_cons.mp hx with rfl | hmem
        · rw [hdata]
          exact monotone_appended hact (hg.2 a (List.mem_cons_self _ _))
        · exact hg.2 x (List.mem_cons_of_mem _ hmem)

lemma goodStore_runOps (userId : Nat) (ops : List Op) : GoodStore (runOps userId ops) := by
  unfold runOps
  suffices h : ∀ st, GoodStore st → GoodStore (ops.foldl (applyOp userId) st) by
    exact h [] goodStore_nil
  induction ops with
  | nil =>
    intro st h
    exact h
  | cons op rest ih =>
    intro st h
    simp only [List.foldl_cons]
    apply ih
    cases op with
    | begin inp newId now => exact goodStore_begin h
    | wake inp now => exact goodStore_wake h

/-! ### Consequences of the invariant -/

lemma isLegacyActive_iff {s : SleepSession} :
    isLegacyActive s = true ↔ ∀ w ∈ s.wakeUps, w.finishedSleeping = false := by
  unfold isLegacyActive
  rw [List.all_eq_true]
  constructor
  · intro h w hw
    simpa using h w hw
  · intro h w hw
    simpa using h w hw

lemma active_of_legacy {s : SleepSession} (h : isLegacyActive s = true) :
    isActiveSession s = true := by
  rw [isActiveSession_eq]
  cases hl : s.wakeUps.getLast? with
  | none => simp
  | some w =>
    have hnil : s.wakeUps ≠ [] := by
      intro hn
      rw [hn] at hl
      simp at hl
    have hw : w ∈ s.wakeUps := by
      rw [List.getLast?_eq_getLast s.wakeUps hnil] at hl
      injection hl with hl'
      rw [← hl']
      exact List.getLast_mem hnil
    have := isLegacyActive_iff.mp h w hw
    simp [this]

lemma legacy_eq_active_of_monotone {s : SleepSession} (hm : monotoneWakeUps s = true) :
    isLegacyActive s = isActiveSession s := by
  by_cases ha : isActiveSession s = true
  · rw [ha]
    exact isLegacyActive_iff.mpr (active_monotone_all_unfinished ha hm)
  · have ha' : isActiveSession s = false := by simpa using ha
    rw [ha']
    cases hlg : isLegacyActive s
    · rfl
    · exact absurd (active_of_legacy hlg) ha

lemma goodStore_legacy_eq (store : List SleepSession) (hg : GoodStore store) :
    legacyFindActive store = findActiveSession store := by
  cases store with
  | nil => rfl
  | cons a rest =>
    have hres : ∀ s ∈ rest, isActiveSession s = false := by
      intro s hs
      exact hg.1 s (by simpa using hs)
    have hma : monotoneWakeUps a = true := hg.2 a (List.mem_cons_self _ _)
    have hRHS : findActiveSession (a :: rest) =
        if isActiveSession a then some a else none := by
      unfold findActiveSession
      rw [window_head]
      unfold scanActiveSession
      by_cases ha : isActiveSession a = true
      · rw [if_pos ha, if_pos ha]
      · rw [if_neg ha, if_neg ha]
        rw [scanActiveSession_eq_entry, Option.map_eq_none', scanActiveEntry_eq_none]
        intro s hs
        exact hres s (List.take_subset _ _ hs)
    have hLHS : legacyFindActive (a :: rest) =
        if isActiveSession a then some a else none := by
      unfold legacyFindActive
      rw [List.find?_cons, legacy_eq_active_of_monotone hma]
      by_cases ha : isActiveSession a = true
      · rw [ha]
        simp
      · have ha' : isActiveSession a = false := by simpa using ha
        rw [ha']
        simp only [Bool.false_eq_true, if_false]
        have hfind : rest.find? isLegacyActive = none := by
          rw [List.find?_eq_none]
          intro x hx
          rw [legacy_eq_active_of_monotone (hg.2 x (List.mem_cons_of_mem _ hx)), hres x hx]
          simp
        simp [hfind]
    rw [hLHS, hRHS]

lemma goodStore_filter_length {store : List SleepSession} (hg : GoodStore store)
    {p : SleepSession → Bool}
    (hp : ∀ s ∈ store, p s = true → isActiveSession s = true) :
    (store.filter p).length ≤ 1 := by
  cases store with
  | nil => simp
  | cons a rest =>
    have hrest : rest.filter p = [] := by
      rw [List.filter_eq_nil_iff]
      intro x hx hpx
      have hax := hp x (List.mem_cons_of_mem _ hx) hpx
      have hfalse := hg.1 x (by simpa using hx)
      rw [hax] at hfalse
      exact absurd hfalse (by simp)
    rw [List.filter_cons, hrest]
    by_cases hpa : p a = true
    · rw [if_pos hpa]
      simp
    · rw [if_neg hpa]
      simp

lemma goodStore_resolver_unique {store : List SleepSession} (hg : GoodStore store)
    {a : SleepSession} (hfa : findActiveSession store = some a) :
    ∀ s ∈ store, isActiveSession s = true → s = a := by
  intro s hs hact
  cases store with
  | nil => simp at hs
  | cons hd rest =>
    have hshd : s = hd := by
      rcases List.mem_cons.mp hs with rfl | hmem
      · rfl
      · have hfalse := hg.1 s (by simpa using hmem)
        rw [hact] at hfalse
        exact absurd hfalse (by simp)
    subst hshd
    unfold findActiveSession at hfa
    rw [window_head] at hfa
    unfold scanActiveSession at hfa
    rw [if_pos hact] at hfa
    injection hfa

/-! ### Concrete material for witnesses and counterexamples -/

def demoBedroomId : String := "abcdefabcdefabcdefabcdef"

def demoFreshSession : SleepSession :=
  { sid := 1
    user := 1
    bedroom := demoBedroomId
    cuddleBuddy := "none"
    sleepyThoughts := ""
    wakeUps := []
    createdAt := 10 }

def demoFinishedWakeUp : WakeUp :=
  { sleepQuality := 9
    dreamJournal := ""
    awakenAt := 20
    finishedSleeping := true
    backToBedAt := none }

def demoClosedSession : SleepSession :=
  { demoFreshSession with sid := 2, wakeUps := [demoFinishedWakeUp] }

def demoBedrooms : List Bedroom :=
  [{ id := demoBedroomId, ownerId := 2 }]

def demoBeginInput : BeginInput :=
  { bedroom := some demoBedroomId
    cuddleBuddy := none
    sleepyThoughts := none }

def demoValidWake : WakeInput :=
  { sleepQuality := .num 7
    dreamJournal := none
    awakenAt := .absent
    finishedSleeping := .undef
    backToBedAt := .absent }

def demoInconsistentWake : WakeInput :=
  { demoValidWake with finishedSleeping := .boolean true, backToBedAt := .valid 50 }

def demoBoundaryWake : WakeInput :=
  { demoValidWake with sleepQuality := .num 1 }

def demoZeroWake : WakeInput :=
  { demoValidWake with sleepQuality := .num 0 }

def demoCreatedSession : SleepSession :=
  { sid := 3
    user := 1
    bedroom := demoBedroomId
    cuddleBuddy := "none"
    sleepyThoughts := ""
    wakeUps := []
    createdAt := 0 }

def demoDefaultedWakeUp : WakeUp :=
  { sleepQuality := 7
    dreamJournal := ""
    awakenAt := 200
    finishedSleeping := false
    backToBedAt := some 1800200 }

def demoUpdatedSession : SleepSession :=
  { demoFreshSession with wakeUps := [demoDefaultedWakeUp] }

def demoOps : List Op :=
  [.begin demoBeginInput 1 10, .wake demoValidWake 20]

lemma cuddle_check_false {inp : BeginInput}
    (hcb : optStrTruthy inp.cuddleBuddy = true →
      validCuddleBuddies.contains (inp.cuddleBuddy.getD "") = true) :
    (optStrTruthy inp.cuddleBuddy
      && !validCuddleBuddies.contains (inp.cuddleBuddy.getD "")) = false := by
  by_cases ht : optStrTruthy inp.cuddleBuddy = true
  · rw [ht, hcb ht]
    rfl
  · have ht' : optStrTruthy inp.cuddleBuddy = false := by simpa using ht
    rw [ht']
    rfl

/-! ### Claims -/

/-- C1: for every user the active-session resolver scans that user's 5
most recently created sessions newest-first and returns the first session
whose wakeUps array is empty or whose last wakeUp has
finishedSleeping == false; if no session in that window qualifies, the
query reports "no active session" as a normal (non-error) result. -/
theorem findActiveSession_first_active_in_window (store : List SleepSession) :
    (∀ s : SleepSession, isActiveSession s = true ↔
      (s.wakeUps = [] ∨ ∃ w, s.wakeUps.getLast? = some w ∧ w.finishedSleeping = false)) ∧
    (∀ s, findActiveSession store = some s →
      ∃ i, i < 5 ∧ store[i]? = some s ∧ isActiveSession s = true ∧
        ∀ j, j < i → ∀ t, store[j]? = some t → isActiveSession t = false) ∧
    (findActiveSession store = none ↔
      ∀ s ∈ recentWindow store, isActiveSession s = false) ∧
    ((∀ s ∈ recentWindow store, isActiveSession s = false) →
      getActiveRoute store = .ok { hasActiveSession := false, activeSession := none }) := by
  refine ⟨?_, ?_, findActiveSession_eq_none, ?_⟩
  · intro s
    rw [isActiveSession_eq]
    cases hl : s.wakeUps.getLast? with
    | none =>
      have hnil := List.getLast?_eq_none_iff.mp hl
      simp [hnil]
    | some w =>
      have hnil : s.wakeUps ≠ [] := by
        intro hn
        rw [hn] at hl
        simp at hl
      simp [hnil]
  · intro s h
    rw [findActiveSession_eq_entry, Option.map_eq_some'] at h
    obtain ⟨⟨i, s'⟩, he, hsnd⟩ := h
    simp only at hsnd
    subst hsnd
    obtain ⟨g1, g2, g3⟩ := scanActiveEntry_some he
    obtain ⟨h5, hget⟩ := window_getElem g1
    refine ⟨i, h5, hget, g2, ?_⟩
    intro j hj t ht
    apply g3 j hj t
    rw [window_getElem_of_lt (by omega)]
    exact ht
  · intro h
    unfold getActiveRoute
    rw [findActiveSession_eq_none.mpr h]

/-- C1 witness: a store whose only session is closed yields the
no-active-session success response. -/
theorem findActiveSession_first_active_in_window_witness :
    getActiveRoute [demoClosedSession] =
      .ok { hasActiveSession := false, activeSession := none } :=
  (findActiveSession_first_active_in_window [demoClosedSession]).2.2.2 (by decide)

/-- C2: after any strictly sequential sequence of Begin-Session and
Record-Wake-Up calls starting from the empty store, at most one stored
session is active, and whenever the resolver reports an active session it
is the unique active one. -/
theorem at_most_one_active_session (userId : Nat) (ops : List Op) :
    ((runOps userId ops).filter (fun s => isActiveSession s)).length ≤ 1 ∧
    ∀ a, findActiveSession (runOps userId ops) = some a →
      ∀ s ∈ runOps userId ops, isActiveSession s = true → s = a := by
  have hg := goodStore_runOps userId ops
  constructor
  · exact goodStore_filter_length hg (fun s _ h => h)
  · intro a ha s hs hact
    exact goodStore_resolver_unique hg ha s hs hact

/-- C2 witness: the invariant evaluated on a concrete two-call run. -/
theorem at_most_one_active_session_witness :
    ((runOps 1 demoOps).filter (fun s => isActiveSession s)).length ≤ 1 :=
  (at_most_one_active_session 1 demoOps).1

/-- C3: once a session's last wake-up has finishedSleeping == true, no
Record-Wake-Up call ever appends to it: a successful call leaves every
closed session untouched, and when every session in the scanned window is
closed a validation-passing call returns NotFoundError. -/
theorem closed_session_never_appended (store : List SleepSession) (inp : WakeInput)
    (now : Int) (i : Nat) (s : SleepSession)
    (hs : store[i]? = some s) (hc : sessionClosed s = true) :
    (∀ store' out, recordWakeUp store inp now = .ok (store', out) →
      store'[i]? = store[i]?) ∧
    ((∀ t ∈ recentWindow store, sessionClosed t = true) →
      (∃ q : Int, inp.sleepQuality = .num q ∧ 1 ≤ q ∧ q ≤ 10) →
      inp.awakenAt ≠ .invalid → inp.backToBedAt ≠ .invalid →
      recordWakeUp store inp now = .error (.notFoundError
        "No active sleep session found. Please start a new sleep session first.")) := by
  constructor
  · intro store' out h
    obtain ⟨j, t, q, he, hdata, hstore, _⟩ := recordWakeUp_ok h
    subst hstore
    obtain ⟨h5, hget, hact⟩ := findActiveEntry_some he
    have hji : j ≠ i := by
      intro hji
      subst hji
      rw [hs] at hget
      injection hget with hts
      rw [← hts] at hact
      rw [sessionClosed_eq_not_isActive, hact] at hc
      exact absurd hc (by simp)
    exact List.getElem?_set_ne hji
  · intro hall hq ha hb
    obtain ⟨q, hq', h1, h2⟩ := hq
    apply recordWakeUp_notFound hq' h1 h2 ha hb
    unfold findActiveEntry
    rw [scanActiveEntry_eq_none]
    intro t ht
    have hct := hall t ht
    rw [sessionClosed_eq_not_isActive] at hct
    simpa using hct

/-- C3 witness: with the only (closed) session in the window, a valid
wake-up call returns the 404 result. -/
theorem closed_session_never_appended_witness :
    recordWakeUp [demoClosedSession] demoValidWake 0 =
      .error (.notFoundError
        "No active sleep session found. Please start a new sleep session first.") :=
  (closed_session_never_appended [demoClosedSession] demoValidWake 0 0 demoClosedSession
      (by decide) (by decide)).2
    (by decide) ⟨7, rfl, by decide, by decide⟩ (by decide) (by decide)

/-- C10: on every store reachable through sequential Begin-Session and
Record-Wake-Up calls, the legacy query-based resolver and the tail-scan
resolver identify the same active session (or both none), and the legacy
query matches at most one stored session. -/
theorem legacy_and_tail_scan_resolvers_agree (userId : Nat) (ops : List Op) :
    legacyFindActive (runOps userId ops) = findActiveSession (runOps userId ops) ∧
    ((runOps userId ops).filter (fun s => isLegacyActive s)).length ≤ 1 := by
  have hg := goodStore_runOps userId ops
  constructor
  · exact goodStore_legacy_eq _ hg
  · exact goodStore_filter_length hg (fun s _ h => active_of_legacy h)

/-- C4 counterexample: with an active session present, a Begin-Session
call whose bedroom field is missing is rejected with a ValidationError,
not a ConflictError, so "whenever Begin-Session is called for a user who
has an active session, the operation rejects with a ConflictError" fails
as stated. -/
theorem begin_session_conflict_counterexample :
    findActiveSession [demoFreshSession] = some demoFreshSession ∧
    beginSession [demoFreshSession] 1
        { bedroom := none, cuddleBuddy := none, sleepyThoughts := none } 2 99 =
      .error (.validationError "Bedroom is required to start a sleep session.") ∧
    (ApiError.validationError
      "Bedroom is required to start a sleep session.").isConflict = false :=
  ⟨by decide, rfl, rfl⟩

/-- C4 (amended): whenever Begin-Session is called with input passing the
field validations (bedroom present and well-formed; cuddleBuddy in the
enum when truthy) for a user with an active session, it rejects with the
ConflictError whose payload carries the active session's id, createdAt,
wake-up count and last wake-up, and the store is unchanged. -/
theorem begin_session_conflict_payload (store : List SleepSession) (userId : Nat)
    (inp : BeginInput) (newId : Nat) (now : Int) (a : SleepSession)
    (hb : optStrTruthy inp.bedroom = true)
    (hf : matchesObjectIdFormat (inp.bedroom.getD "") = true)
    (hcb : optStrTruthy inp.cuddleBuddy = true →
      validCuddleBuddies.contains (inp.cuddleBuddy.getD "") = true)
    (ha : findActiveSession store = some a) :
    beginSession store userId inp newId now =
      .error (.conflictError
        "You already have an active sleep session. Redirecting to wake-up page."
        (summarizeActiveSession a)) ∧
    (summarizeActiveSession a).id = a.sid ∧
    (summarizeActiveSession a).createdAt = a.createdAt ∧
    (summarizeActiveSession a).wakeUpCount = a.wakeUps.length ∧
    (summarizeActiveSession a).lastWakeUp = a.wakeUps.getLast? ∧
    applyOp userId store (.begin inp newId now) = store := by
  have hbegin : beginSession store userId inp newId now =
      .error (.conflictError
        "You already have an active sleep session. Redirecting to wake-up page."
        (summarizeActiveSession a)) := by
    unfold beginSession
    rw [if_neg (by simp [hb]), if_neg (by simp [hf]),
      if_neg (by rw [cuddle_check_false hcb]; simp), ha]
  exact ⟨hbegin, rfl, rfl, rfl, rfl, by simp [applyOp, hbegin]⟩

/-- C4 witness: the conflict response on a concrete active store. -/
theorem begin_session_conflict_payload_witness :
    beginSession [demoFreshSession] 1 demoBeginInput 2 99 =
      .error (.conflictError
        "You already have an active sleep session. Redirecting to wake-up page."
        (summarizeActiveSession demoFreshSession)) :=
  (begin_session_conflict_payload [demoFreshSession] 1 demoBeginInput 2 99 demoFreshSession
    (by decide) (by decide) (fun h => absurd h (by decide)) (by decide)).1

/-- C5 counterexample: beginning a session with a well-formed bedroomId
owned by a different user succeeds and creates the session — no ownership
or existence check is performed before creation. -/
theorem begin_session_ownership_counterexample :
    bedroomOwnedBy demoBedrooms demoBedroomId 1 = false ∧
    beginSession [] 1 demoBeginInput 3 0 =
      .ok (demoCreatedSession, [demoCreatedSession]) :=
  ⟨by decide, rfl⟩

/-- C5 (amended): Begin-Session validates only that the supplied bedroomId
is present (truthy) and matches the 24-hex-digit ObjectId format,
rejecting with a ValidationError and leaving the store unchanged
otherwise; it performs no ownership or existence check, so with well-formed
input and no active session the session is created even when the bedroom
store says the bedroom belongs to a different user. -/
theorem begin_session_bedroom_validation (store : List SleepSession) (userId : Nat)
    (inp : BeginInput) (newId : Nat) (now : Int) (bedrooms : List Bedroom) :
    (optStrTruthy inp.bedroom = false →
      beginSession store userId inp newId now =
        .error (.validationError "Bedroom is required to start a sleep session.") ∧
      applyOp userId store (.begin inp newId now) = store) ∧
    (optStrTruthy inp.bedroom = true →
      matchesObjectIdFormat (inp.bedroom.getD "") = false →
      beginSession store userId inp newId now =
        .error (.validationError "Invalid bedroom ID format.") ∧
      applyOp userId store (.begin inp newId now) = store) ∧
    (optStrTruthy inp.bedroom = true →
      matchesObjectIdFormat (inp.bedroom.getD "") = true →
      (optStrTruthy inp.cuddleBuddy = true →
        validCuddleBuddies.contains (inp.cuddleBuddy.getD "") = true) →
      findActiveSession store = none →
      bedroomOwnedBy bedrooms (inp.bedroom.getD "") userId = false →
      isOk (beginSession store userId inp newId now) = true) := by
  refine ⟨?_, ?_, ?_⟩
  · intro hb
    have hbegin : beginSession store userId inp newId now =
        .error (.validationError "Bedroom is required to start a sleep session.") := by
      unfold beginSession
      rw [if_pos (by simp [hb])]
    exact ⟨hbegin, by simp [applyOp, hbegin]⟩
  · intro hb hf
    have hbegin : beginSession store userId inp newId now =
        .error (.validationError "Invalid bedroom ID format.") := by
      unfold beginSession
      rw [if_neg (by simp [hb]), if_pos (by simp [hf])]
    exact ⟨hbegin, by simp [applyOp, hbegin]⟩
  · intro hb hf hcb hnone _
    unfold beginSession
    rw [if_neg (by simp [hb]), if_neg (by simp [hf]),
      if_neg (by rw [cuddle_check_false hcb]; simp), hnone]
    rfl

/-- C5 witness: with well-formed input, an empty store and a bedroom owned
by another user, Begin-Session succeeds. -/
theorem begin_session_bedroom_validation_witness :
    isOk (beginSession [] 1 demoBeginInput 3 0) = true :=
  (begin_session_bedroom_validation [] 1 demoBeginInput 3 0 demoBedrooms).2.2
    (by decide) (by decide) (fun h => absurd h (by decide)) (by decide) (by decide)

/-- C6 counterexample: with no active session, a call with coerced
finishedSleeping true and a supplied backToBedAt fails with NotFoundError,
not ValidationError — the consistency check does not precede
active-session resolution. -/
theorem consistency_guard_counterexample :
    jsTruthy demoInconsistentWake.finishedSleeping = true ∧
    recordWakeUp [] demoInconsistentWake 0 =
      .error (.notFoundError
        "No active sleep session found. Please start a new sleep session first.") ∧
    failsValidation (recordWakeUp [] demoInconsistentWake 0) = false :=
  ⟨by decide, rfl, by decide⟩

/-- C6 (amended): whenever the earlier field validations pass and an
active session is resolved, a call with coerced finishedSleeping true and
a supplied valid backToBedAt fails with the "cannot set back-to-bed time"
ValidationError and the store is unchanged; the check runs after
active-session resolution, so with no active session in the window the
same call fails with NotFoundError instead (store likewise unchanged). -/
theorem consistency_guard_after_resolution (store : List SleepSession) (userId : Nat)
    (inp : WakeInput) (now : Int) (q t : Int)
    (hq : inp.sleepQuality = .num q) (h1 : 1 ≤ q) (h2 : q ≤ 10)
    (ha : inp.awakenAt ≠ .invalid)
    (hb : inp.backToBedAt = .valid t)
    (hf : jsTruthy inp.finishedSleeping = true) :
    (∀ e, findActiveEntry store = some e →
      recordWakeUp store inp now =
        .error (.validationError "Cannot set back-to-bed time when finished sleeping.")) ∧
    (findActiveEntry store = none →
      recordWakeUp store inp now =
        .error (.notFoundError
          "No active sleep session found. Please start a new sleep session first.")) ∧
    applyOp userId store (.wake inp now) = store := by
  have hbv : inp.backToBedAt ≠ .invalid := by
    rw [hb]
    simp
  refine ⟨?_, ?_, ?_⟩
  · intro e he
    exact recordWakeUp_consistency hq h1 h2 ha hb hf he
  · intro hnone
    exact recordWakeUp_notFound hq h1 h2 ha hbv hnone
  · cases he : findActiveEntry store with
    | none => simp [applyOp, recordWakeUp_notFound hq h1 h2 ha hbv he]
    | some e => simp [applyOp, recordWakeUp_consistency hq h1 h2 ha hb hf he]

/-- C6 witness: the consistency rejection on a concrete active store. -/
theorem consistency_guard_after_resolution_witness :
    recordWakeUp [demoFreshSession] demoInconsistentWake 0 =
      .error (.validationError "Cannot set back-to-bed time when finished sleeping.") :=
  (consistency_guard_after_resolution [demoFreshSession] 1 demoInconsistentWake 0 7 50
    rfl (by decide) (by decide) (by decide) rfl (by decide)).1
    (0, demoFreshSession) (by decide)

/-- C7 counterexample: a call with the in-range sleepQuality 1 does not
always succeed — on an empty store it fails with NotFoundError. -/
theorem range_guard_counterexample :
    demoBoundaryWake.sleepQuality = .num 1 ∧
    recordWakeUp [] demoBoundaryWake 0 =
      .error (.notFoundError
        "No active sleep session found. Please start a new sleep session first.") ∧
    isOk (recordWakeUp [] demoBoundaryWake 0) = false :=
  ⟨rfl, rfl, by decide⟩

/-- C7 (amended): sleepQuality 0, 11 or -1 always yields the range
ValidationError, and a non-numeric sleepQuality always yields a
ValidationError; with sleepQuality 1 or 10 the range guard never rejects,
and the call succeeds whenever the date fields are valid, the consistency
guard is satisfied and an active session is resolved. -/
theorem sleep_quality_range_guard (store : List SleepSession) (inp : WakeInput)
    (now : Int) :
    (inp.sleepQuality = .num 0 ∨ inp.sleepQuality = .num 11 ∨
        inp.sleepQuality = .num (-1) →
      recordWakeUp store inp now =
        .error (.validationError "Sleep quality must be a number between 1 and 10.")) ∧
    ((∀ n : Int, inp.sleepQuality ≠ .num n) →
      failsValidation (recordWakeUp store inp now) = true) ∧
    (inp.sleepQuality = .num 1 ∨ inp.sleepQuality = .num 10 →
      inp.awakenAt ≠ .invalid → inp.backToBedAt ≠ .invalid →
      (jsTruthy inp.finishedSleeping
        && (coerceBackToBedAt inp.backToBedAt).isSome) = false →
      ∀ e, findActiveEntry store = some e →
      isOk (recordWakeUp store inp now) = true) := by
  refine ⟨?_, recordWakeUp_nonNumeric, ?_⟩
  · intro h
    rcases h with h | h | h
    · exact recordWakeUp_rangeError h (by omega)
    · exact recordWakeUp_rangeError h (by omega)
    · exact recordWakeUp_rangeError h (by omega)
  · intro hq ha hb hc e he
    rcases hq with h | h
    · exact recordWakeUp_isOk h (by omega) (by omega) ha hb he hc
    · exact recordWakeUp_isOk h (by omega) (by omega) ha hb he hc

/-- C7 witness: sleepQuality 0 is rejected with the range ValidationError
on a concrete store. -/
theorem sleep_quality_range_guard_witness :
    recordWakeUp [] demoZeroWake 0 =
      .error (.validationError "Sleep quality must be a number between 1 and 10.") :=
  (sleep_quality_range_guard [] demoZeroWake 0).1 (Or.inl rfl)

/-- C8: a successful Record-Wake-Up with coerced finishedSleeping false
and no backToBedAt supplied stores a wake-up whose backToBedAt equals its
awakenAt plus 30 minutes (with awakenAt the supplied time or the time of
recording), and the updated session is in the new store. -/
theorem back_to_bed_default_thirty_minutes (store : List SleepSession) (inp : WakeInput)
    (now : Int) (store' : List SleepSession) (out : WakeOutcome)
    (hr : recordWakeUp store inp now = .ok (store', out))
    (hf : jsTruthy inp.finishedSleeping = false)
    (hb : inp.backToBedAt = .absent) :
    out.data.wakeUps.getLast?.isSome = true ∧
    (∀ w, out.data.wakeUps.getLast? = some w →
      w.backToBedAt = some (w.awakenAt + 30 * 60 * 1000) ∧
      w.awakenAt = coerceAwakenAt inp.awakenAt now) ∧
    out.data ∈ store' := by
  obtain ⟨i, s, q, he, hdata, hstore, _⟩ := recordWakeUp_ok hr
  subst hstore
  have hlast : out.data.wakeUps.getLast? = some (builtWakeUpEvent inp now q) := by
    rw [hdata]
    show (s.wakeUps ++ [builtWakeUpEvent inp now q]).getLast? = some _
    exact List.getLast?_concat _
  refine ⟨by rw [hlast]; rfl, ?_, ?_⟩
  · intro w hw
    rw [hlast] at hw
    injection hw with hw'
    subst hw'
    constructor
    · show appliedBackToBedAt inp now = some (coerceAwakenAt inp.awakenAt now + 30 * 60 * 1000)
      unfold appliedBackToBedAt
      rw [hf, hb]
      simp [coerceBackToBedAt]
    · rfl
  · obtain ⟨h5, hget, _⟩ := findActiveEntry_some he
    have hmem : (store.set i out.data)[i]? = some out.data := by
      rw [List.getElem?_set_self', hget]
      rfl
    exact List.getElem?_mem hmem

/-- C8 witness: the defaulted back-to-bed time on a concrete run. -/
theorem back_to_bed_default_thirty_minutes_witness :
    demoDefaultedWakeUp.backToBedAt
      = some (demoDefaultedWakeUp.awakenAt + 30 * 60 * 1000) ∧
    demoDefaultedWakeUp.awakenAt = coerceAwakenAt demoValidWake.awakenAt 200 :=
  (back_to_bed_default_thirty_minutes [demoFreshSession] demoValidWake 200
      [demoUpdatedSession]
      { data := demoUpdatedSession, wakeUpCount := 1, sessionCompleted := false }
      rfl rfl rfl).2.1 demoDefaultedWakeUp rfl

/-- C9: when finishedSleeping is absent (undefined) in the input, the
appended wake-up has finishedSleeping == false and the response reports
the session as not completed — the Boolean coercion gives the false
default even though the persisted wakeUp schema declares default true. -/
theorem finished_sleeping_defaults_false (store : List SleepSession) (inp : WakeInput)
    (now : Int) (store' : List SleepSession) (out : WakeOutcome)
    (hr : recordWakeUp store inp now = .ok (store', out))
    (hf : inp.finishedSleeping = .undef) :
    (∀ w, out.data.wakeUps.getLast? = some w → w.finishedSleeping = false) ∧
    out.sessionCompleted = false ∧
    wakeUpSchemaFinishedSleepingDefault = true := by
  obtain ⟨i, s, q, he, hdata, hstore, hcomp⟩ := recordWakeUp_ok hr
  have hjs : jsTruthy inp.finishedSleeping = false := by
    rw [hf]
    rfl
  refine ⟨?_, by rw [hcomp, hjs], rfl⟩
  intro w hw
  rw [hdata] at hw
  have hw2 : (s.wakeUps ++ [builtWakeUpEvent inp now q]).getLast? = some w := hw
  rw [List.getLast?_concat] at hw2
  injection hw2 with hw'
  rw [← hw']
  show jsTruthy inp.finishedSleeping = false
  exact hjs

/-- C9 witness: the coerced false default on a concrete run. -/
theorem finished_sleeping_defaults_false_witness :
    demoDefaultedWakeUp.finishedSleeping = false ∧
    wakeUpSchemaFinishedSleepingDefault = true :=
  ⟨(finished_sleeping_defaults_false [demoFreshSession] demoValidWake 200
      [demoUpdatedSession]
      { data := demoUpdatedSession, wakeUpCount := 1, sessionCompleted := false }
      rfl rfl).1 demoDefaultedWakeUp rfl,
    rfl⟩

end DreamWeaver
